/-
  Verification of the pulumi-gcp-github-registry repository
  (Go, package `deploy/ci`): a shallow embedding of its configuration
  record, its pure string helpers, and its resource-declaration
  sequences, with theorems settling the specified properties.

  The repository contains two implementations of the same stack:
  a legacy constructor `NewGithubGoogleRegistryStack` and the current
  component constructor `NewGithubGoogleRegistry` (method `deploy`).
  Both are embedded below, in namespaces `Legacy` and `Component`.

  Go strings are modelled as Lean `String`s; Go's `len` and slicing
  are modelled as character-based length and take (they agree on the
  ASCII strings the program manipulates).
-/
import Mathlib

namespace GithubRegistry

/-- The configuration record, from `deploy/ci/env.go` (`type Config`). -/
structure Config where
  GCPProject : String
  GCPRegion : String
  RepositoryLocation : String
  AllowedRepoURL : String
  RepositoryOwner : String
  RepositoryOwnerID : String
  RepositoryID : String
  IdentityPoolProviderName : String
  ResourcePrefix : String
  RepositoryName : String
  CreateServiceAccount : Bool
  ProtectResources : Bool
  RecentImageRetentionCount : Nat
  OldImageDeletionDays : String
deriving DecidableEq, Repr

namespace Component

/-- Function `capToMax` from `deploy/ci/registry.go` (component half):
truncates `identityProviderName` to at most `maxLen` characters. -/
def capToMax (identityProviderName : String) (maxLen : Nat) : String :=
  if identityProviderName.length > maxLen then
    ⟨identityProviderName.data.take maxLen⟩
  else
    identityProviderName

/-- Function `extractRepoName` from `deploy/ci/registry.go` (component half):
strips the prefix `https://github.com/` when present. -/
def extractRepoName (repoURL : String) : String :=
  if repoURL.length > 19 ∧ repoURL.data.take 19 = "https://github.com/".data then
    ⟨repoURL.data.drop 19⟩
  else
    repoURL

/-- Function `buildAttributeCondition` from `deploy/ci/registry.go` (component half). -/
def buildAttributeCondition (repoName : String) (config : Config) : String :=
  let condition := "attribute.repository == \"" ++ repoName ++ "\""
  let condition :=
    if config.RepositoryOwner ≠ "" then
      condition ++ " && attribute.repository_owner == \"" ++ config.RepositoryOwner ++ "\""
    else condition
  let condition :=
    if config.RepositoryOwnerID ≠ "" then
      condition ++ " && attribute.repository_owner_id == \"" ++ config.RepositoryOwnerID ++ "\""
    else condition
  let condition :=
    if config.RepositoryID ≠ "" then
      condition ++ " && attribute.repository_id == \"" ++ config.RepositoryID ++ "\""
    else condition
  condition

end Component

/-- Declared arguments of an `artifactregistry.RepositoryIamMember` resource. -/
structure RepositoryIamMember where
  repository : String
  location : String
  project : String
  role : String
  member : String
deriving DecidableEq, Repr

/-- Declared arguments of a `projects.IAMMember` resource. -/
structure ProjectIAMMember where
  project : String
  role : String
  member : String
deriving DecidableEq, Repr

/-- One lifecycle rule of a storage bucket: an action type and an age condition. -/
structure BucketLifecycleRule where
  actionType : String
  conditionAgeDays : Nat
deriving DecidableEq, Repr

/-- Declared arguments of a `storage.Bucket` resource. -/
structure Bucket where
  name : String
  location : String
  project : String
  forceDestroy : Bool
  versioningEnabled : Bool
  lifecycleRules : List BucketLifecycleRule
  labels : List (String × String)
  publicAccessPrevention : String
  uniformBucketLevelAccess : Bool
deriving DecidableEq, Repr

/-- Declared arguments of a `storage.BucketIAMMember` resource. -/
structure BucketIAMMember where
  bucket : String
  role : String
  member : String
deriving DecidableEq, Repr

/-- Declared arguments of a `serviceaccount.Account` resource. -/
structure ServiceAccount where
  accountId : String
  project : String
  displayName : String
deriving DecidableEq, Repr

/-- Declared arguments of a `serviceaccount.IAMMember` resource. -/
structure ServiceAccountIAMMember where
  serviceAccountId : String
  role : String
  member : String
deriving DecidableEq, Repr

/-- Declared arguments of an `iam.WorkloadIdentityPool` resource. -/
structure WorkloadIdentityPool where
  workloadIdentityPoolId : String
  project : String
  disabled : Bool
deriving DecidableEq, Repr

/-- Declared arguments of an `iam.WorkloadIdentityPoolProvider` resource. -/
structure WorkloadIdentityPoolProvider where
  workloadIdentityPoolProviderId : String
  project : String
  disabled : Bool
  issuerUri : String
  attributeCondition : String
deriving DecidableEq, Repr

namespace Component

/-- Pool resource name declared by `newGithubActionsOIDCProvider`
(component half, `registry.go`): `"%s-github-actions-pool"` of the
prefix, capped to 32. -/
def identityPoolName (config : Config) : String :=
  capToMax ( Config.ResourcePrefix config ++ "-github-actions-pool") 32

/-- Provider resource name declared by `newGithubActionsOIDCProvider`
(component half, `registry.go`): `"%s-%s"` of the prefix and the
configured provider name, capped to 32. -/
def identityProviderName (config : Config) : String :=
  capToMax ( Config.ResourcePrefix config ++ "-" ++ config.IdentityPoolProviderName) 32

/-- The pool and provider declared by `newGithubActionsOIDCProvider`
(component half, `registry.go`). -/
def newGithubActionsOIDCProvider (config : Config) (repoName : String) :
    WorkloadIdentityPoolProvider × WorkloadIdentityPool :=
  let identityPool : WorkloadIdentityPool :=
    { workloadIdentityPoolId := identityPoolName config
      project := config.GCPProject
      disabled := false }
  let oidcProvider : WorkloadIdentityPoolProvider :=
    { workloadIdentityPoolProviderId := identityProviderName config
      project := config.GCPProject
      disabled := false
      issuerUri := "https://token.actions.githubusercontent.com"
      attributeCondition := buildAttributeCondition repoName config }
  (oidcProvider, identityPool)

/-- The repository- and project-level IAM members declared by
`grantPipelineIAM` (component half, `registry.go`). `registryName` is
the engine-resolved `registry.Name` output. -/
def grantPipelineIAM (config : Config) (registryName : String)
    (repoPrincipalID : String) :
    List RepositoryIamMember × List ProjectIAMMember :=
  let repoRoles := ["roles/artifactregistry.writer"]
  let projectRoles :=
    ["roles/containeranalysis.notes.editor",
     "roles/containeranalysis.occurrences.editor",
     "roles/storage.bucketViewer"]
  let repoIAMMembers := repoRoles.map fun role =>
    { repository := registryName
      location := config.RepositoryLocation
      project := config.GCPProject
      role := role
      member := repoPrincipalID : RepositoryIamMember }
  let projectIAMMembers := projectRoles.map fun role =>
    { project := config.GCPProject
      role := role
      member := repoPrincipalID : ProjectIAMMember }
  (repoIAMMembers, projectIAMMembers)

/-- The SBOM bucket and its IAM member declared by `createSBOMsBucket`
(component half, `registry.go`). The bucket IAM member's `Bucket` field
takes the engine-resolved `bucket.Name`, which for a bucket with an
explicit `Name` argument is that name. -/
def createSBOMsBucket (config : Config) (repoPrincipalID : String) :
    Bucket × BucketIAMMember :=
  let bucketName := "artifacts-" ++ config.GCPProject ++ "-sbom"
  let bucket : Bucket :=
    { name := bucketName
      location := config.GCPRegion
      project := config.GCPProject
      forceDestroy := false
      versioningEnabled := true
      lifecycleRules := [{ actionType := "Delete", conditionAgeDays := 365 }]
      labels := [("purpose", "sbom-storage"), ("managed-by", "pulumi")]
      publicAccessPrevention := "enforced"
      uniformBucketLevelAccess := true }
  let bucketIAMMember : BucketIAMMember :=
    { bucket := bucketName
      role := "roles/storage.objectAdmin"
      member := repoPrincipalID }
  (bucket, bucketIAMMember)

/-- The service account and delegation binding declared by
`newServiceAccountForDelegation` (component half, `registry.go`).
`saName` and `saEmail` are the engine-resolved `Name` and `Email`
outputs of the created account. -/
def newServiceAccountForDelegation (config : Config)
    (saName saEmail : String) : ServiceAccount × ServiceAccountIAMMember :=
  let serviceAccountName := capToMax ( Config.ResourcePrefix config ++ "-github-actions-sa") 30
  let githubActionsSA : ServiceAccount :=
    { accountId := serviceAccountName
      project := config.GCPProject
      displayName := "GitHub Actions Service Account" }
  let binding : ServiceAccountIAMMember :=
    { serviceAccountId := saName
      role := "roles/iam.workloadIdentityUser"
      member := "serviceAccount:" ++ saEmail }
  (githubActionsSA, binding)

/-- The resources assembled by `(*GithubGoogleRegistry).deploy` on the
success path (component half, `registry.go`). -/
structure DeployResult where
  oidcProvider : WorkloadIdentityPoolProvider
  workloadIdentityPool : WorkloadIdentityPool
  repoPrincipalID : String
  repoIAMMembers : List RepositoryIamMember
  projectIAMMembers : List ProjectIAMMember
  sbomBucket : Bucket
  sbomBucketIAMMember : BucketIAMMember
  gitHubActionsServiceAccount : Option ServiceAccount
  delegationBinding : Option ServiceAccountIAMMember
deriving Repr

/-- Method `deploy` of `GithubGoogleRegistry` (component half, `registry.go`),
success path: the resource values it declares and the outputs it sets.
`poolName`, `registryName`, `saName`, `saEmail` are the engine-resolved
outputs of the pool, the registry, and the service account. -/
def deploy (config : Config) (poolName registryName saName saEmail : String) :
    DeployResult :=
  let repoName := extractRepoName config.AllowedRepoURL
  let (oidcProvider, workloadIdentityPool) :=
    newGithubActionsOIDCProvider config repoName
  let repoPrincipalID :=
    "principalSet://iam.googleapis.com/" ++ poolName ++
      "/attribute.repository/" ++ repoName
  let (repoIAMMembers, projectIAMMembers) :=
    grantPipelineIAM config registryName repoPrincipalID
  let (sbomBucket, sbomBucketIAMMember) :=
    createSBOMsBucket config repoPrincipalID
  let saPair : Option (ServiceAccount × ServiceAccountIAMMember) :=
    if config.CreateServiceAccount then
      some (newServiceAccountForDelegation config saName saEmail)
    else
      none
  { oidcProvider := oidcProvider
    workloadIdentityPool := workloadIdentityPool
    repoPrincipalID := repoPrincipalID
    repoIAMMembers := repoIAMMembers
    projectIAMMembers := projectIAMMembers
    sbomBucket := sbomBucket
    sbomBucketIAMMember := sbomBucketIAMMember
    gitHubActionsServiceAccount := saPair.map Prod.fst
    delegationBinding := saPair.map Prod.snd }

end Component

namespace Legacy

/-- Function `capToMax` from `deploy/ci/registry.go` (legacy half): same text as
the component's copy. -/
def capToMax (identityProviderName : String) (maxLen : Nat) : String :=
  if identityProviderName.length > maxLen then
    ⟨identityProviderName.data.take maxLen⟩
  else
    identityProviderName

/-- Function `extractRepoName` from `deploy/ci/registry.go` (legacy half): same
text as the component's copy. -/
def extractRepoName (repoURL : String) : String :=
  if repoURL.length > 19 ∧ repoURL.data.take 19 = "https://github.com/".data then
    ⟨repoURL.data.drop 19⟩
  else
    repoURL

/-- Function `buildAttributeCondition` from `deploy/ci/registry.go` (legacy
half): same text as the component's copy. -/
def buildAttributeCondition (repoName : String) (config : Config) : String :=
  let condition := "attribute.repository == \"" ++ repoName ++ "\""
  let condition :=
    if config.RepositoryOwner ≠ "" then
      condition ++ " && attribute.repository_owner == \"" ++ config.RepositoryOwner ++ "\""
    else condition
  let condition :=
    if config.RepositoryOwnerID ≠ "" then
      condition ++ " && attribute.repository_owner_id == \"" ++ config.RepositoryOwnerID ++ "\""
    else condition
  let condition :=
    if config.RepositoryID ≠ "" then
      condition ++ " && attribute.repository_id == \"" ++ config.RepositoryID ++ "\""
    else condition
  condition

/-- The result struct of the legacy constructor
`NewGithubGoogleRegistryStack` (legacy half, `registry.go`). -/
structure StackResult where
  oidcProvider : WorkloadIdentityPoolProvider
  workloadIdentityPool : WorkloadIdentityPool
  repoPrincipalID : String
  repoIAMMembers : List RepositoryIamMember
  projectIAMMembers : List ProjectIAMMember
  gitHubActionsServiceAccount : Option ServiceAccount
  delegationBinding : Option ServiceAccountIAMMember
deriving Repr

/-- Function `NewGithubGoogleRegistryStack` (legacy half, `registry.go`),
success path: the resource values it declares. `poolName`,
`registryName`, `saName`, `saEmail` are the engine-resolved outputs of
the pool, the registry, and the service account. -/
def newGithubGoogleRegistryStack (config : Config)
    (poolName registryName saName saEmail : String) : StackResult :=
  let repoName := extractRepoName config.AllowedRepoURL
  let identityPoolName := capToMax ( Config.ResourcePrefix config ++ "-github-actions-pool") 32
  let identityProviderName :=
    capToMax ( Config.ResourcePrefix config ++ "-" ++ config.IdentityPoolProviderName) 32
  let workloadIdentityPool : WorkloadIdentityPool :=
    { workloadIdentityPoolId := identityPoolName
      project := config.GCPProject
      disabled := false }
  let oidcProvider : WorkloadIdentityPoolProvider :=
    { workloadIdentityPoolProviderId := identityProviderName
      project := config.GCPProject
      disabled := false
      issuerUri := "https://token.actions.githubusercontent.com"
      attributeCondition := buildAttributeCondition repoName config }
  let repoPrincipalID :=
    "principalSet://iam.googleapis.com/" ++ poolName ++
      "/attribute.repository/" ++ repoName
  let repoRoles := ["roles/artifactregistry.writer"]
  let projectRoles :=
    ["roles/containeranalysis.notes.editor",
     "roles/containeranalysis.occurrences.editor"]
  let repoIAMMembers := repoRoles.map fun role =>
    { repository := registryName
      location := config.RepositoryLocation
      project := config.GCPProject
      role := role
      member := repoPrincipalID : RepositoryIamMember }
  let projectIAMMembers := projectRoles.map fun role =>
    { project := config.GCPProject
      role := role
      member := repoPrincipalID : ProjectIAMMember }
  let saPair : Option (ServiceAccount × ServiceAccountIAMMember) :=
    if config.CreateServiceAccount then
      let serviceAccountName := capToMax ( Config.ResourcePrefix config ++ "-github-actions-sa") 30
      some ({ accountId := serviceAccountName
              project := config.GCPProject
              displayName := "GitHub Actions Service Account" },
            { serviceAccountId := saName
              role := "roles/iam.workloadIdentityUser"
              member := "serviceAccount:" ++ saEmail })
    else
      none
  { oidcProvider := oidcProvider
    workloadIdentityPool := workloadIdentityPool
    repoPrincipalID := repoPrincipalID
    repoIAMMembers := repoIAMMembers
    projectIAMMembers := projectIAMMembers
    gitHubActionsServiceAccount := saPair.map Prod.fst
    delegationBinding := saPair.map Prod.snd }

end Legacy

/-! ## Error propagation model

The pulumi engine is modelled by an oracle assigning to the `i`-th
resource-declaration call of a run either `none` (success) or
`some e` (failure with error text `e`). Each constructor is a fixed
sequence of declaration calls; on the first failing call the Go code
returns at once, applying the `fmt.Errorf` wrap of every enclosing
call site. `runDeclsFrom` runs such a sequence, where each entry of
`prefixes` is the composed wrap prefix that the source applies to
that step's error on the way out (empty when the source returns the
error unmodified). -/

/-- Run declaration steps `k, k+1, ...`, one per entry of `prefixes`;
stop at the first failure, wrapping its error with that step's
composed prefix. Returns the next free index on success. -/
def runDeclsFrom (oracle : Nat → Option String) :
    Nat → List String → Except String Nat
  | k, [] => .ok k
  | k, p :: rest =>
    match oracle k with
    | some e => .error (p ++ e)
    | none => runDeclsFrom oracle (k + 1) rest

/-- Run a whole declaration sequence from index 0. -/
def runDecls (oracle : Nat → Option String) (prefixes : List String) :
    Except String Nat :=
  runDeclsFrom oracle 0 prefixes

namespace Component

/-- The declaration calls of `NewGithubGoogleRegistry` (component
half, `registry.go`) in source order, each with the composed error
prefix the source wraps around that call's failure: the inner
`fmt.Errorf` wraps of `enableRegistryAPI`, `newGithubActionsOIDCProvider`,
`grantPipelineIAM`, `createSBOMsBucket`, `newServiceAccountForDelegation`,
then `deploy`'s own wrap, then the constructor's
`failed to deploy component resources` wrap. Steps, in order:
`RegisterComponentResource`; `projects.NewService` (API enablement);
`artifactregistry.NewRepository`; `iam.NewWorkloadIdentityPool`;
`iam.NewWorkloadIdentityPoolProvider`; one
`artifactregistry.NewRepositoryIamMember`; three
`projects.NewIAMMember`; `storage.NewBucket`;
`storage.NewBucketIAMMember`; when `CreateServiceAccount` is set,
`serviceaccount.NewAccount` and `serviceaccount.NewIAMMember`;
finally `organizations.GetProject`. -/
def constructorPrefixes (config : Config) : List String :=
  let dp := "failed to deploy component resources: "
  ["failed to register component resource: "] ++
  ([dp ++ "failed to enable Artifact Registry API: " ++
      "failed to enable Artifact Registry API: ",
    dp ++ "failed to create artifact registry repository: ",
    dp ++ "failed to create OIDC provider for GitHub Actions: " ++
      "failed to create OIDC provider for GitHub Actions: ",
    dp ++ "failed to create OIDC provider for GitHub Actions: " ++
      "failed to create OIDC provider for GitHub Actions: ",
    dp ++ "failed to grant IAM permissions to the pipeline: " ++
      "failed to create repository IAM member: "] ++
   List.replicate 3
     (dp ++ "failed to grant IAM permissions to the pipeline: " ++
        "failed to create project IAM member: ") ++
   [dp ++ "failed to create SBOM bucket: " ++ "failed to create SBOM bucket: ",
    dp ++ "failed to create SBOM bucket: " ++
      "failed to create SBOM bucket IAM member: "] ++
   (if config.CreateServiceAccount then
      [dp ++ "failed to create service account for delegation: " ++
         "failed to create service account for delegation: ",
       dp ++ "failed to create service account for delegation: " ++
         "failed to create service account IAM member: "]
    else []) ++
   [dp ++ "failed to get project numeric ID: "])

/-- The error behaviour of `NewGithubGoogleRegistry` (component half):
run its declaration sequence against the engine oracle. -/
def newGithubGoogleRegistryE (config : Config)
    (oracle : Nat → Option String) : Except String Nat :=
  runDecls oracle (constructorPrefixes config)

end Component

namespace Legacy

/-- The declaration calls of `NewGithubGoogleRegistryStack` (legacy
half, `registry.go`) in source order. Every call site of the legacy
constructor returns errors with `return nil, err`, without any
`fmt.Errorf` wrap, so every composed prefix is empty. Steps, in
order: `artifactregistry.NewRepository`; `iam.NewWorkloadIdentityPool`;
`iam.NewWorkloadIdentityPoolProvider`; one
`artifactregistry.NewRepositoryIamMember`; two
`projects.NewIAMMember`; when `CreateServiceAccount` is set,
`serviceaccount.NewAccount` and `serviceaccount.NewIAMMember`. -/
def constructorPrefixes (config : Config) : List String :=
  ["", "", "", "", "", ""] ++
    (if config.CreateServiceAccount then ["", ""] else [])

/-- The error behaviour of `NewGithubGoogleRegistryStack` (legacy
half): run its declaration sequence against the engine oracle. -/
def newGithubGoogleRegistryStackE (config : Config)
    (oracle : Nat → Option String) : Except String Nat :=
  runDecls oracle (constructorPrefixes config)

end Legacy

/-- The configuration used by the repository's own tests
(`registry_test.go`); fields the test leaves unset take Go's zero
values. -/
def testConfig : Config :=
  { GCPProject := "test-project"
    GCPRegion := "us-central1"
    RepositoryLocation := "us"
    AllowedRepoURL := "https://github.com/test/repo"
    RepositoryOwner := "test"
    RepositoryOwnerID := "1234567890"
    RepositoryID := "1234567890"
    IdentityPoolProviderName := "github-actions-provider"
    ResourcePrefix := "ci-with-a-long-prefix"
    RepositoryName := "registry"
    CreateServiceAccount := false
    ProtectResources := false
    RecentImageRetentionCount := 0
    OldImageDeletionDays := "" }

/-! ## Theorems -/

/-- A string of length zero is the empty string. -/
theorem eq_empty_of_length_eq_zero {s : String} (h : s.length = 0) :
    s = "" := by
  cases s with
  | mk data =>
    simp [String.length] at h
    simp [h]

/-- Unfolding lemma: intercalating one string. -/
theorem intercalate_one (s a : String) :
    String.intercalate s [a] = a := rfl

/-- Unfolding lemma: intercalating two strings. -/
theorem intercalate_two (s a b : String) :
    String.intercalate s [a, b] = a ++ s ++ b := rfl

/-- Unfolding lemma: intercalating three strings. -/
theorem intercalate_three (s a b c : String) :
    String.intercalate s [a, b, c] = a ++ s ++ b ++ s ++ c := rfl

/-- Unfolding lemma: intercalating four strings. -/
theorem intercalate_four (s a b c d : String) :
    String.intercalate s [a, b, c, d] = a ++ s ++ b ++ s ++ c ++ s ++ d := rfl

/-- C1: for every repository slug and configuration,
`buildAttributeCondition` returns exactly the `' && '`-join of the
always-present repository clause, then an owner clause iff
`RepositoryOwner` is non-empty, then an owner-ID clause iff
`RepositoryOwnerID` is non-empty, then a repository-ID clause iff
`RepositoryID` is non-empty, in that order. -/
theorem c1_buildAttributeCondition_clause_structure
    (repoName : String) (config : Config) :
    Component.buildAttributeCondition repoName config =
      String.intercalate " && "
        (["attribute.repository == \"" ++ repoName ++ "\""] ++
         (if config.RepositoryOwner ≠ "" then
            ["attribute.repository_owner == \"" ++ config.RepositoryOwner ++ "\""]
          else []) ++
         (if config.RepositoryOwnerID ≠ "" then
            ["attribute.repository_owner_id == \"" ++ config.RepositoryOwnerID ++ "\""]
          else []) ++
         (if config.RepositoryID ≠ "" then
            ["attribute.repository_id == \"" ++ config.RepositoryID ++ "\""]
          else [])) := by
  unfold Component.buildAttributeCondition
  by_cases h1 : config.RepositoryOwner = "" <;>
    by_cases h2 : config.RepositoryOwnerID = "" <;>
      by_cases h3 : config.RepositoryID = "" <;>
        simp only [h1, h2, h3, ne_eq, not_true, not_false_iff,
          eq_self_iff_true, if_true, if_false, ite_true, ite_false,
          not_false_eq_true, not_true_eq_false, List.append_nil,
          List.nil_append, List.cons_append, List.singleton_append,
          intercalate_one, intercalate_two, intercalate_three,
          intercalate_four] <;>
        (apply String.ext; simp [String.data_append])

/-- Truncation bound: `capToMax s n` has at most `n` characters. -/
theorem capToMax_length_le (s : String) (n : Nat) :
    (Component.capToMax s n).length ≤ n := by
  unfold Component.capToMax
  split
  · next h =>
    show (String.mk (s.data.take n)).length ≤ n
    rw [String.length_mk, List.length_take]
    exact Nat.min_le_left _ _
  · next h => omega

/-- C3: for every configuration, both the identity-provider name and
the identity-pool name, after prefixing and truncation with limit 32,
have length at most 32 characters. -/
theorem c3_identity_names_within_32_chars (config : Config) :
    (Component.identityProviderName config).length ≤ 32 ∧
      (Component.identityPoolName config).length ≤ 32 :=
  ⟨capToMax_length_le _ 32, capToMax_length_le _ 32⟩

/-- C9: `extractRepoName` strips the prefix `https://github.com/`
from any URL of that shape that is longer than the prefix; in
particular it maps `https://github.com/test/repo` to `test/repo`. -/
theorem c9_extractRepoName_strips_github_prefix
    (rest : String) (h : rest ≠ "") :
    Component.extractRepoName ("https://github.com/" ++ rest) = rest := by
  have hpl : ("https://github.com/" : String).length = 19 := rfl
  have hlen : ("https://github.com/" ++ rest).length = 19 + rest.length := by
    rw [String.length_append, hpl]
  have hrest : 0 < rest.length := by
    by_contra hz
    exact h (eq_empty_of_length_eq_zero (Nat.eq_zero_of_not_pos hz))
  have hdata : ("https://github.com/" ++ rest).data =
      "https://github.com/".data ++ rest.data := String.data_append ..
  unfold Component.extractRepoName
  rw [if_pos]
  · show String.mk (("https://github.com/" ++ rest).data.drop 19) = rest
    rw [hdata]
    have : ("https://github.com/".data ++ rest.data).drop 19 = rest.data := by
      have h19 : ("https://github.com/".data).length = 19 := rfl
      rw [← h19, List.drop_left]
    rw [this]
  · constructor
    · omega
    · rw [hdata]
      have h19 : ("https://github.com/".data).length = 19 := rfl
      rw [← h19, List.take_left]

/-- Witness for C9 at the spec's concrete example. -/
theorem c9_extractRepoName_strips_github_prefix_witness :
    ("test/repo" : String) ≠ "" ∧
      Component.extractRepoName ("https://github.com/" ++ "test/repo") = "test/repo" :=
  ⟨by decide, c9_extractRepoName_strips_github_prefix "test/repo" (by decide)⟩

/-- C4: for every deployment, the federated principal string has
exactly the shape
`principalSet://iam.googleapis.com/<pool-resource-name>/attribute.repository/<slug>`,
and the very same string is the member of every repository-level
binding, every project-level binding, and the SBOM bucket binding. -/
theorem c4_federated_principal_shape_and_uniform_member
    (config : Config) (poolName registryName saName saEmail : String) :
    (Component.deploy config poolName registryName saName saEmail).repoPrincipalID =
        "principalSet://iam.googleapis.com/" ++ poolName ++
          "/attribute.repository/" ++
          Component.extractRepoName config.AllowedRepoURL ∧
      (∀ m ∈ (Component.deploy config poolName registryName saName saEmail).repoIAMMembers,
        RepositoryIamMember.member m =
          (Component.deploy config poolName registryName saName saEmail).repoPrincipalID) ∧
      (∀ m ∈ (Component.deploy config poolName registryName saName saEmail).projectIAMMembers,
        ProjectIAMMember.member m =
          (Component.deploy config poolName registryName saName saEmail).repoPrincipalID) ∧
      (Component.deploy config poolName registryName saName saEmail).sbomBucketIAMMember.member =
        (Component.deploy config poolName registryName saName saEmail).repoPrincipalID := by
  refine ⟨rfl, ?_, ?_, rfl⟩
  · intro m hm
    simp [Component.deploy, Component.grantPipelineIAM] at hm
    rw [hm]; rfl
  · intro m hm
    simp [Component.deploy, Component.grantPipelineIAM] at hm
    rcases hm with h | h | h <;> (rw [h]; rfl)

/-- Witness for C4 at a concrete deployment and binding. -/
theorem c4_federated_principal_shape_and_uniform_member_witness :
    (Component.deploy testConfig "test-pool" "test-registry" "" "").repoPrincipalID =
        "principalSet://iam.googleapis.com/" ++ "test-pool" ++
          "/attribute.repository/" ++
          Component.extractRepoName testConfig.AllowedRepoURL ∧
      RepositoryIamMember.member
          { repository := "test-registry", location := "us", project := "test-project"
            role := "roles/artifactregistry.writer"
            member := "principalSet://iam.googleapis.com/test-pool/attribute.repository/test/repo" } =
        (Component.deploy testConfig "test-pool" "test-registry" "" "").repoPrincipalID :=
  ⟨(c4_federated_principal_shape_and_uniform_member testConfig "test-pool" "test-registry" "" "").1,
    (c4_federated_principal_shape_and_uniform_member testConfig "test-pool" "test-registry" "" "").2.1
      _ (by decide)⟩

/-- C5: for every configuration, the SBOM bucket is named
`artifacts-<project>-sbom`, has versioning, uniform bucket-level
access, enforced public-access prevention, exactly one Delete
lifecycle rule at age 365, and the federated principal holds
`roles/storage.objectAdmin` on it. -/
theorem c5_sbom_bucket_configuration
    (config : Config) (poolName registryName saName saEmail : String) :
    (Component.deploy config poolName registryName saName saEmail).sbomBucket.name =
        "artifacts-" ++ config.GCPProject ++ "-sbom" ∧
      (Component.deploy config poolName registryName saName saEmail).sbomBucket.versioningEnabled = true ∧
      (Component.deploy config poolName registryName saName saEmail).sbomBucket.uniformBucketLevelAccess = true ∧
      (Component.deploy config poolName registryName saName saEmail).sbomBucket.publicAccessPrevention = "enforced" ∧
      (Component.deploy config poolName registryName saName saEmail).sbomBucket.lifecycleRules =
        [{ actionType := "Delete", conditionAgeDays := 365 }] ∧
      (Component.deploy config poolName registryName saName saEmail).sbomBucketIAMMember.role =
        "roles/storage.objectAdmin" ∧
      (Component.deploy config poolName registryName saName saEmail).sbomBucketIAMMember.member =
        (Component.deploy config poolName registryName saName saEmail).repoPrincipalID :=
  ⟨rfl, rfl, rfl, rfl, rfl, rfl, rfl⟩

/-- C6: when `CreateServiceAccount` is false, neither constructor
produces a service account or a delegation binding, and the result's
service-account field is `none`. -/
theorem c6_no_service_account_when_flag_false
    (config : Config) (poolName registryName saName saEmail : String)
    (h : config.CreateServiceAccount = false) :
    (Component.deploy config poolName registryName saName saEmail).gitHubActionsServiceAccount = none ∧
      (Component.deploy config poolName registryName saName saEmail).delegationBinding = none ∧
      (Legacy.newGithubGoogleRegistryStack config poolName registryName saName saEmail).gitHubActionsServiceAccount = none ∧
      (Legacy.newGithubGoogleRegistryStack config poolName registryName saName saEmail).delegationBinding = none := by
  refine ⟨?_, ?_, ?_, ?_⟩ <;>
    simp [Component.deploy, Legacy.newGithubGoogleRegistryStack, h]

/-- Witness for C6 at the repository's test configuration. -/
theorem c6_no_service_account_when_flag_false_witness :
    testConfig.CreateServiceAccount = false ∧
      (Component.deploy testConfig "test-pool" "test-registry" "" "").gitHubActionsServiceAccount = none ∧
      (Legacy.newGithubGoogleRegistryStack testConfig "test-pool" "test-registry" "" "").gitHubActionsServiceAccount = none :=
  ⟨rfl,
    (c6_no_service_account_when_flag_false testConfig "test-pool" "test-registry" "" "" rfl).1,
    (c6_no_service_account_when_flag_false testConfig "test-pool" "test-registry" "" "" rfl).2.2.1⟩

/-- C2 (code evaluation): with `CreateServiceAccount` set, the
delegation binding carries role `roles/iam.workloadIdentityUser`, but
its member is `serviceAccount:<service-account email>` — the service
account's own identity — not the externally-federated
`principalSet://` principal that the claim (and the code's own
comment) describe. -/
theorem c2_delegation_binding_member_is_service_account :
    (Component.deploy { testConfig with CreateServiceAccount := true }
          "test-pool" "test-registry" "test-sa-name"
          "test-sa@test-project.iam.gserviceaccount.com").delegationBinding =
        some { serviceAccountId := "test-sa-name"
               role := "roles/iam.workloadIdentityUser"
               member := "serviceAccount:test-sa@test-project.iam.gserviceaccount.com" } ∧
      Option.map (fun b => ServiceAccountIAMMember.member b)
          (Component.deploy { testConfig with CreateServiceAccount := true }
            "test-pool" "test-registry" "test-sa-name"
            "test-sa@test-project.iam.gserviceaccount.com").delegationBinding ≠
        some (Component.deploy { testConfig with CreateServiceAccount := true }
            "test-pool" "test-registry" "test-sa-name"
            "test-sa@test-project.iam.gserviceaccount.com").repoPrincipalID := by
  constructor
  · rfl
  · decide

/-- C8: two configurations differing in their resource prefix whose
identity-pool names and identity-provider names coincide after
truncation to 32 characters: the name derivation is not injective. -/
theorem c8_truncation_collision_exists :
    ∃ c1 c2 : Config,
      Config.ResourcePrefix c1 ≠ Config.ResourcePrefix c2 ∧
        Component.identityPoolName c1 = Component.identityPoolName c2 ∧
        Component.identityProviderName c1 = Component.identityProviderName c2 := by
  refine ⟨{ testConfig with ResourcePrefix := "aaaaaaaaaaaaaaaaaaaaaaaaaaaaaaaa" },
          { testConfig with ResourcePrefix := "aaaaaaaaaaaaaaaaaaaaaaaaaaaaaaaaa" },
          ?_, ?_, ?_⟩ <;> decide

/-- Running a declaration sequence whose first engine failure is at
step `i` (relative to start index `k`) stops there and returns that
step's error wrapped with that step's composed prefix. -/
theorem runDeclsFrom_error_at (oracle : Nat → Option String) :
    ∀ (ps : List String) (k i : Nat) (e : String) (hi : i < ps.length),
      (∀ j, j < i → oracle (k + j) = none) → oracle (k + i) = some e →
        runDeclsFrom oracle k ps = .error (ps.get ⟨i, hi⟩ ++ e) := by
  intro ps
  induction ps with
  | nil =>
    intro k i e hi
    simp at hi
  | cons p rest ih =>
    intro k i e hi hnone hsome
    cases i with
    | zero =>
      have h0 : oracle k = some e := by simpa using hsome
      simp [runDeclsFrom, h0]
    | succ n =>
      have hk : oracle k = none := by simpa using hnone 0 (Nat.succ_pos n)
      have hnone1 : ∀ j, j < n → oracle (k + 1 + j) = none := by
        intro j hj
        have := hnone (j + 1) (by omega)
        have harith : k + (j + 1) = k + 1 + j := by omega
        rwa [harith] at this
      have hsome1 : oracle (k + 1 + n) = some e := by
        have harith : k + (n + 1) = k + 1 + n := by omega
        rwa [harith] at hsome
      have hrec := ih (k + 1) n e (Nat.lt_of_succ_lt_succ hi) hnone1 hsome1
      simpa [runDeclsFrom, hk] using hrec

/-- Counterexample to C7 as stated: when every engine call fails with
`boom`, the legacy exported constructor `NewGithubGoogleRegistryStack`
returns the error `boom` itself — not wrapped with any non-empty
contextual prefix, since no non-empty string prepended to `boom`
yields `boom`. -/
theorem c7_counterexample_legacy_error_unwrapped :
    Legacy.newGithubGoogleRegistryStackE testConfig (fun _ => some "boom") =
        .error "boom" ∧
      ∀ p : String, p ≠ "" → ("boom" : String) ≠ p ++ "boom" := by
  constructor
  · rfl
  · intro p hp hcontra
    have hl : ("boom" : String).length = (p ++ "boom").length :=
      congrArg String.length hcontra
    rw [String.length_append] at hl
    have hz : p.length = 0 := by omega
    exact hp (eq_empty_of_length_eq_zero hz)

/-- C7 amended: any engine failure aborts the declaration sequence at
once, with no retry; the component constructor
`NewGithubGoogleRegistry` returns the error wrapped with the
(non-empty) contextual prefixes of the failed step, while the legacy
constructor `NewGithubGoogleRegistryStack` returns the error
unmodified. -/
theorem c7_amended_error_propagation (config : Config)
    (oracle : Nat → Option String) (k : Nat) (e : String) :
    (∀ hk : k < (Component.constructorPrefixes config).length,
        (∀ j, j < k → oracle j = none) → oracle k = some e →
          Component.newGithubGoogleRegistryE config oracle =
            .error ((Component.constructorPrefixes config).get ⟨k, hk⟩ ++ e)) ∧
      (∀ p ∈ Component.constructorPrefixes config, p ≠ "") ∧
      (∀ hk : k < (Legacy.constructorPrefixes config).length,
        (∀ j, j < k → oracle j = none) → oracle k = some e →
          Legacy.newGithubGoogleRegistryStackE config oracle = .error e) := by
  refine ⟨?_, ?_, ?_⟩
  · intro hk hnone hsome
    have h := runDeclsFrom_error_at oracle (Component.constructorPrefixes config)
      0 k e hk (fun j hj => by simpa using hnone j hj) (by simpa using hsome)
    exact h
  · cases hc : config.CreateServiceAccount <;>
      simp [Component.constructorPrefixes, hc]
  · intro hk hnone hsome
    have h := runDeclsFrom_error_at oracle (Legacy.constructorPrefixes config)
      0 k e hk (fun j hj => by simpa using hnone j hj) (by simpa using hsome)
    have hall : ∀ p ∈ Legacy.constructorPrefixes config, p = "" := by
      cases hc : config.CreateServiceAccount <;>
        simp [Legacy.constructorPrefixes, hc]
    have hblank : (Legacy.constructorPrefixes config).get ⟨k, hk⟩ = "" :=
      hall _ (List.get_mem _ _ _)
    rw [hblank] at h
    have hempty : ("" : String) ++ e = e := by
      apply String.ext
      simp [String.data_append]
    rwa [hempty] at h

/-- Witness for C7 amended: a failure `boom` at the very first
declaration step, under the repository's test configuration. -/
theorem c7_amended_error_propagation_witness :
    Component.newGithubGoogleRegistryE testConfig
        (fun j => if j = 0 then some "boom" else none) =
      .error ("failed to register component resource: " ++ "boom") ∧
    Legacy.newGithubGoogleRegistryStackE testConfig
        (fun j => if j = 0 then some "boom" else none) = .error "boom" := by
  constructor
  · exact (c7_amended_error_propagation testConfig
        (fun j => if j = 0 then some "boom" else none) 0 "boom").1
      (by decide) (fun j hj => absurd hj (Nat.not_lt_zero j)) rfl
  · exact (c7_amended_error_propagation testConfig
        (fun j => if j = 0 then some "boom" else none) 0 "boom").2.2
      (by decide) (fun j hj => absurd hj (Nat.not_lt_zero j)) rfl

/-- C10: the pure helpers duplicated between the legacy stack
implementation and the component implementation are extensionally
equal: `capToMax`, `extractRepoName` and `buildAttributeCondition`
agree on all inputs. -/
theorem c10_legacy_component_helpers_agree :
    (∀ s n, Legacy.capToMax s n = Component.capToMax s n) ∧
      (∀ url, Legacy.extractRepoName url = Component.extractRepoName url) ∧
      (∀ repoName config,
        Legacy.buildAttributeCondition repoName config =
          Component.buildAttributeCondition repoName config) :=
  ⟨fun _ _ => rfl, fun _ => rfl, fun _ _ => rfl⟩

end GithubRegistry
